import Mathlib

/-!
Verification of the managed-identity credential-source resolver and
delegation facade (`ManagedIdentityCredential`), in its synchronous
variant (`azure/identity/_credentials/managed_identity.py`) and its
asynchronous variant (`azure/identity/aio/_credentials/managed_identity.py`).

The environment is modelled as a snapshot mapping variable names to
optionally-present string values (`os.environ.get` returns `None` for an
absent variable).  Python truthiness of such a value (`None` and `""` are
falsy) is `truthy`.  Construction (`__init__`) is embedded as a function
from the environment snapshot and the constructor options to either a
raised error or the successfully constructed facade state, which is the
optionally-held delegate, identified by its `CredentialSourceKind`.
Delegate classes themselves are external collaborators and stay abstract:
`get_token` and `close` take the delegate behaviour as a function argument.
-/

namespace ManagedIdentity

/-- An environment snapshot: `env v` is `some s` when variable `v` is bound
to the string `s`, and `none` when it is absent (`os.environ.get(v)`). -/
def Env : Type := String → Option String

/-- Python truthiness of `os.environ.get(v)`: `None` and the empty string
are falsy, every other string is truthy. -/
def truthy : Option String → Bool
  | none => false
  | some s => !s.isEmpty

/-- `EnvironmentVariables.IDENTITY_ENDPOINT`. -/
def IDENTITY_ENDPOINT : String := "IDENTITY_ENDPOINT"

/-- `EnvironmentVariables.IDENTITY_HEADER`. -/
def IDENTITY_HEADER : String := "IDENTITY_HEADER"

/-- `EnvironmentVariables.IDENTITY_SERVER_THUMBPRINT`. -/
def IDENTITY_SERVER_THUMBPRINT : String := "IDENTITY_SERVER_THUMBPRINT"

/-- `EnvironmentVariables.IMDS_ENDPOINT`. -/
def IMDS_ENDPOINT : String := "IMDS_ENDPOINT"

/-- `EnvironmentVariables.MSI_ENDPOINT`. -/
def MSI_ENDPOINT : String := "MSI_ENDPOINT"

/-- `EnvironmentVariables.MSI_SECRET`. -/
def MSI_SECRET : String := "MSI_SECRET"

/-- `EnvironmentVariables.AZURE_CLIENT_ID`. -/
def AZURE_CLIENT_ID : String := "AZURE_CLIENT_ID"

/-- `EnvironmentVariables.AZURE_TENANT_ID`. -/
def AZURE_TENANT_ID : String := "AZURE_TENANT_ID"

/-- `EnvironmentVariables.AZURE_FEDERATED_TOKEN_FILE`. -/
def AZURE_FEDERATED_TOKEN_FILE : String := "AZURE_FEDERATED_TOKEN_FILE"

/-- `EnvironmentVariables.AZURE_AUTHORITY_HOST`. -/
def AZURE_AUTHORITY_HOST : String := "AZURE_AUTHORITY_HOST"

/-- Modelled from the spec: `EnvironmentVariables.WORKLOAD_IDENTITY_VARS`
lives in `_constants.py`, which is not part of the extracted source.  The
spec lists the workload-identity signal set as the tenant-ID variable, the
federated-token-file variable and an authority-host variable, with the
client ID resolved separately (option first, then `AZURE_CLIENT_ID`), so
`AZURE_CLIENT_ID` is not itself a member of this set. -/
def WORKLOAD_IDENTITY_VARS : List String :=
  [AZURE_AUTHORITY_HOST, AZURE_TENANT_ID, AZURE_FEDERATED_TOKEN_FILE]

/-- The tag of the concrete delegate class selected by resolution, or
`noMatch` when no branch assigns a delegate. -/
inductive CredentialSourceKind where
  | ServiceFabric
  | AppService
  | AzureArc
  | AzureML
  | CloudShell
  | WorkloadIdentity
  | Imds
  | noMatch
  deriving DecidableEq, Repr

/-- Constructor options of the facade: the `client_id` keyword argument and
the internal `_exclude_workload_identity_credential` flag (all other keyword
arguments are forwarded opaquely to the delegate and play no role in
resolution). -/
structure Options where
  client_id : Option String
  exclude_workload_identity : Bool
  deriving DecidableEq, Repr

/-- A raised Python exception, by class and message. -/
inductive PyErr where
  | valueError (message : String)
  | credentialUnavailable (message : String)
  | other (message : String)
  deriving DecidableEq, Repr

/-- Python `a or b` on two optionally-present strings, as used in
`kwargs.pop("client_id", None) or os.environ.get(EnvironmentVariables.AZURE_CLIENT_ID)`. -/
def pyOr (a b : Option String) : Option String :=
  if truthy a then a else b

/-- The guard of the workload-identity branch:
`all(os.environ.get(var) for var in EnvironmentVariables.WORKLOAD_IDENTITY_VARS)`. -/
def workloadVarsPresent (env : Env) : Bool :=
  WORKLOAD_IDENTITY_VARS.all fun v => truthy (env v)

/-- The branch-selection logic of the synchronous `__init__`
(`_credentials/managed_identity.py`, lines 48-97), as the pure resolver the
spec factors out: which delegate class the nested `if` structure selects.
In the branch where `IDENTITY_ENDPOINT` is truthy but `IDENTITY_HEADER` and
`IMDS_ENDPOINT` are not, no assignment happens and `_credential` stays
`None`, rendered here as `noMatch`. -/
def resolve_sync (env : Env) (exclude_workload_identity : Bool) :
    CredentialSourceKind :=
  if truthy (env IDENTITY_ENDPOINT) then
    if truthy (env IDENTITY_HEADER) then
      if truthy (env IDENTITY_SERVER_THUMBPRINT) then .ServiceFabric
      else .AppService
    else if truthy (env IMDS_ENDPOINT) then .AzureArc
    else .noMatch
  else if truthy (env MSI_ENDPOINT) then
    if truthy (env MSI_SECRET) then .AzureML
    else .CloudShell
  else if workloadVarsPresent env && !exclude_workload_identity then
    .WorkloadIdentity
  else .Imds

/-- The branch-selection logic of the asynchronous `__init__`
(`aio/_credentials/managed_identity.py`, lines 50-104).  It differs from
`resolve_sync` in exactly one branch: when `IDENTITY_ENDPOINT` is truthy but
`IDENTITY_HEADER` and `IMDS_ENPOINT` are not, the async variant has an
`else` arm assigning `CloudShellCredential`. -/
def resolve_async (env : Env) (exclude_workload_identity : Bool) :
    CredentialSourceKind :=
  if truthy (env IDENTITY_ENDPOINT) then
    if truthy (env IDENTITY_HEADER) then
      if truthy (env IDENTITY_SERVER_THUMBPRINT) then .ServiceFabric
      else .AppService
    else if truthy (env IMDS_ENDPOINT) then .AzureArc
    else .CloudShell
  else if truthy (env MSI_ENDPOINT) then
    if truthy (env MSI_SECRET) then .AzureML
    else .CloudShell
  else if workloadVarsPresent env && !exclude_workload_identity then
    .WorkloadIdentity
  else .Imds

/-- The error message of the `ValueError` raised by the workload-identity
branch when no client ID is resolvable. -/
def clientIdErrorMessage : String :=
  "Configure the environment with a client ID or pass a value for \"client_id\" argument"

/-- The synchronous `__init__` (`_credentials/managed_identity.py`, lines
45-97): either raises (workload-identity branch entered with no resolvable
client ID) or returns the constructed facade state, that is the optionally
held delegate.  Direct translation of the nested `if` structure. -/
def sync_init (env : Env) (opts : Options) :
    Except PyErr (Option CredentialSourceKind) :=
  if truthy (env IDENTITY_ENDPOINT) then
    if truthy (env IDENTITY_HEADER) then
      if truthy (env IDENTITY_SERVER_THUMBPRINT) then
        .ok (some .ServiceFabric)
      else
        .ok (some .AppService)
    else if truthy (env IMDS_ENDPOINT) then
      .ok (some .AzureArc)
    else
      .ok none
  else if truthy (env MSI_ENDPOINT) then
    if truthy (env MSI_SECRET) then
      .ok (some .AzureML)
    else
      .ok (some .CloudShell)
  else if workloadVarsPresent env && !opts.exclude_workload_identity then
    if truthy (pyOr opts.client_id (env AZURE_CLIENT_ID)) then
      .ok (some .WorkloadIdentity)
    else
      .error (.valueError clientIdErrorMessage)
  else
    .ok (some .Imds)

/-- The asynchronous `__init__` (`aio/_credentials/managed_identity.py`,
lines 46-104).  Identical to `sync_init` except for the extra `else` arm
assigning `CloudShellCredential` inside the identity-endpoint branch. -/
def async_init (env : Env) (opts : Options) :
    Except PyErr (Option CredentialSourceKind) :=
  if truthy (env IDENTITY_ENDPOINT) then
    if truthy (env IDENTITY_HEADER) then
      if truthy (env IDENTITY_SERVER_THUMBPRINT) then
        .ok (some .ServiceFabric)
      else
        .ok (some .AppService)
    else if truthy (env IMDS_ENDPOINT) then
      .ok (some .AzureArc)
    else
      .ok (some .CloudShell)
  else if truthy (env MSI_ENDPOINT) then
    if truthy (env MSI_SECRET) then
      .ok (some .AzureML)
    else
      .ok (some .CloudShell)
  else if workloadVarsPresent env && !opts.exclude_workload_identity then
    if truthy (pyOr opts.client_id (env AZURE_CLIENT_ID)) then
      .ok (some .WorkloadIdentity)
    else
      .error (.valueError clientIdErrorMessage)
  else
    .ok (some .Imds)

/-- An access token: opaque bearer string plus expiry instant, passed
through unmodified by the facade. -/
structure AccessToken where
  token : String
  expires_on : Int
  deriving DecidableEq, Repr

/-- The argument bundle of a `get_token` call: positional scopes, the
`claims` and `tenant_id` keywords, and the remaining keyword arguments,
forwarded verbatim. -/
structure TokenRequest where
  scopes : List String
  claims : Option String
  tenant_id : Option String
  kwargs : List (String × String)
  deriving DecidableEq, Repr

/-- The behaviour of a delegate's `get_token`: a function from the
delegate's kind and the forwarded request to its result or raised error.
Delegates are external collaborators, so this is a parameter. -/
def DelegateGetToken : Type :=
  CredentialSourceKind → TokenRequest → Except PyErr AccessToken

/-- The `CredentialUnavailableError` message of the synchronous
`get_token` (lines 133-138). -/
def syncUnavailableMessage : String :=
  "No managed identity endpoint found. \n" ++
  "The Target Azure platform could not be determined from environment variables. \n" ++
  "Visit https://aka.ms/azsdk/python/identity/managedidentitycredential/troubleshoot to " ++
  "troubleshoot this issue."

/-- The `CredentialUnavailableError` message of the asynchronous
`get_token` (lines 135-140); it has a space where the synchronous message
has its second newline. -/
def asyncUnavailableMessage : String :=
  "No managed identity endpoint found. \n" ++
  "The Target Azure platform could not be determined from environment variables. " ++
  "Visit https://aka.ms/azsdk/python/identity/managedidentitycredential/troubleshoot to " ++
  "troubleshoot this issue."

/-- The synchronous `get_token` (lines 112-139): raise
`CredentialUnavailableError` when no delegate is held, otherwise forward
the call verbatim to the delegate. -/
def sync_get_token (cred : Option CredentialSourceKind)
    (delegate : DelegateGetToken) (req : TokenRequest) :
    Except PyErr AccessToken :=
  match cred with
  | none => .error (.credentialUnavailable syncUnavailableMessage)
  | some c => delegate c req

/-- The asynchronous `get_token` (lines 116-141): same state machine, with
the async message constant. -/
def async_get_token (cred : Option CredentialSourceKind)
    (delegate : DelegateGetToken) (req : TokenRequest) :
    Except PyErr AccessToken :=
  match cred with
  | none => .error (.credentialUnavailable asyncUnavailableMessage)
  | some c => delegate c req

/-- The behaviour of a delegate's `close`/`__exit__`: external, so a
parameter. -/
def DelegateClose : Type := CredentialSourceKind → Except PyErr Unit

/-- The synchronous `close` (lines 108-110), which is `__exit__`
(lines 104-106): call the delegate's `__exit__` only when one is held. -/
def sync_close (cred : Option CredentialSourceKind)
    (dclose : DelegateClose) : Except PyErr Unit :=
  match cred with
  | none => .ok ()
  | some c => dclose c

/-- The asynchronous `close` (lines 111-114): await the delegate's `close`
only when one is held. -/
def async_close (cred : Option CredentialSourceKind)
    (dclose : DelegateClose) : Except PyErr Unit :=
  match cred with
  | none => .ok ()
  | some c => dclose c

/-- Removing every empty-string binding from a snapshot: a variable bound
to `""` becomes absent.  Used to state that resolution discriminates on
presence only. -/
def stripEmpty (env : Env) : Env := fun v =>
  match env v with
  | some s => if s.isEmpty then none else some s
  | none => none

/-- The empty snapshot: no variable is bound. -/
def emptyEnv : Env := fun _ => none

/-- A snapshot binding only `IDENTITY_ENDPOINT` — the combination on which
the two variants disagree. -/
def endpointOnlyEnv : Env := fun v =>
  if v = IDENTITY_ENDPOINT then some "http://localhost:42/token" else none

/-- Default options: no `client_id`, workload identity not excluded. -/
def defaultOpts : Options := ⟨none, false⟩

/-- A snapshot with the three Service Fabric signals bound. -/
def sfEnv : Env := fun v =>
  if v = IDENTITY_ENDPOINT then some "http://localhost:42/token"
  else if v = IDENTITY_HEADER then some "header-secret"
  else if v = IDENTITY_SERVER_THUMBPRINT then some "thumbprint"
  else none

/-- A snapshot with `IDENTITY_ENDPOINT` and `IDENTITY_HEADER` bound but no
thumbprint — the App Service shape of the spec's example scenario. -/
def appServiceEnv : Env := fun v =>
  if v = IDENTITY_ENDPOINT then some "http://x"
  else if v = IDENTITY_HEADER then some "secret"
  else none

/-- A snapshot binding `MSI_ENDPOINT` and `MSI_SECRET` (Azure ML shape). -/
def azureMlEnv : Env := fun v =>
  if v = MSI_ENDPOINT then some "http://msi"
  else if v = MSI_SECRET then some "msi-secret"
  else none

/-- A snapshot binding only `MSI_ENDPOINT` (Cloud Shell shape). -/
def cloudShellEnv : Env := fun v =>
  if v = MSI_ENDPOINT then some "http://msi" else none

/-- A snapshot binding exactly the workload-identity signal set, with no
client ID anywhere. -/
def wlEnv : Env := fun v =>
  if v = AZURE_AUTHORITY_HOST then some "https://login.microsoftonline.com"
  else if v = AZURE_TENANT_ID then some "tenant"
  else if v = AZURE_FEDERATED_TOKEN_FILE then some "/var/run/secrets/azure/tokens/azure-identity-token"
  else none

/-- A delegate whose `get_token` always succeeds with a fixed token. -/
def okDelegate : DelegateGetToken := fun _ _ => .ok ⟨"token-value", 1700000000⟩

/-- The request of the spec's example scenario:
`get_token("https://management.azure.com/.default")`. -/
def exampleRequest : TokenRequest :=
  ⟨["https://management.azure.com/.default"], none, none, []⟩

/-- A delegate whose `close` always succeeds. -/
def okClose : DelegateClose := fun _ => .ok ()

/-- Truthiness is invariant under removing empty-string bindings. -/
theorem truthy_stripEmpty (env : Env) (v : String) :
    truthy (stripEmpty env v) = truthy (env v) := by
  unfold stripEmpty truthy
  cases env v with
  | none => rfl
  | some s => by_cases h : s.isEmpty <;> simp [h]

/-- The workload-identity guard is invariant under removing empty-string
bindings. -/
theorem workloadVarsPresent_stripEmpty (env : Env) :
    workloadVarsPresent (stripEmpty env) = workloadVarsPresent env := by
  simp [workloadVarsPresent, truthy_stripEmpty]

/-- Truthiness of Python `a or b` on optionally-present strings. -/
theorem truthy_pyOr (a b : Option String) :
    truthy (pyOr a b) = (truthy a || truthy b) := by
  unfold pyOr
  by_cases h : truthy a <;> simp [h]

/-- C1 counterexample: on the snapshot binding only `IDENTITY_ENDPOINT`,
the synchronous variant resolves to no delegate while the asynchronous
variant resolves to CloudShell, so the two resolution functions are not
extensionally equal. -/
theorem c1_resolution_divergence_counterexample :
    resolve_sync endpointOnlyEnv false = CredentialSourceKind.noMatch ∧
    resolve_async endpointOnlyEnv false = CredentialSourceKind.CloudShell ∧
    resolve_sync endpointOnlyEnv false ≠ resolve_async endpointOnlyEnv false := by
  refine ⟨rfl, rfl, ?_⟩
  decide

/-- C1 (amended): the synchronous and asynchronous resolutions agree on
every environment snapshot and exclude flag, except exactly when
`IDENTITY_ENDPOINT` is present and `IDENTITY_HEADER` and `IMDS_ENDPOINT`
are both absent; there the synchronous variant selects no delegate and the
asynchronous variant selects CloudShell. -/
theorem c1_resolution_agreement_except_endpoint_only (env : Env) (exclude : Bool) :
    (¬(truthy (env IDENTITY_ENDPOINT) = true ∧
        truthy (env IDENTITY_HEADER) = false ∧
        truthy (env IMDS_ENDPOINT) = false) →
      resolve_sync env exclude = resolve_async env exclude) ∧
    (truthy (env IDENTITY_ENDPOINT) = true →
      truthy (env IDENTITY_HEADER) = false →
      truthy (env IMDS_ENDPOINT) = false →
      resolve_sync env exclude = CredentialSourceKind.noMatch ∧
      resolve_async env exclude = CredentialSourceKind.CloudShell) := by
  unfold resolve_sync resolve_async
  cases he : truthy (env IDENTITY_ENDPOINT) <;>
    cases hh : truthy (env IDENTITY_HEADER) <;>
      cases hi : truthy (env IMDS_ENDPOINT) <;>
        simp [he, hh, hi]

/-- C1 witness: the amended agreement applied at concrete snapshots. -/
theorem c1_resolution_agreement_witness :
    resolve_sync emptyEnv false = resolve_async emptyEnv false ∧
    (resolve_sync endpointOnlyEnv false = CredentialSourceKind.noMatch ∧
      resolve_async endpointOnlyEnv false = CredentialSourceKind.CloudShell) :=
  ⟨(c1_resolution_agreement_except_endpoint_only emptyEnv false).1 (by decide),
   (c1_resolution_agreement_except_endpoint_only endpointOnlyEnv false).2 rfl rfl rfl⟩

/-- C3: whenever `IDENTITY_ENDPOINT` and `IDENTITY_HEADER` are both
present, both variants resolve to ServiceFabric when
`IDENTITY_SERVER_THUMBPRINT` is also present and to AppService when it is
absent, for every remaining binding and exclude flag. -/
theorem c3_identity_endpoint_header_branch (env : Env) (exclude : Bool)
    (he : truthy (env IDENTITY_ENDPOINT) = true)
    (hh : truthy (env IDENTITY_HEADER) = true) :
    (truthy (env IDENTITY_SERVER_THUMBPRINT) = true →
      resolve_sync env exclude = CredentialSourceKind.ServiceFabric ∧
      resolve_async env exclude = CredentialSourceKind.ServiceFabric) ∧
    (truthy (env IDENTITY_SERVER_THUMBPRINT) = false →
      resolve_sync env exclude = CredentialSourceKind.AppService ∧
      resolve_async env exclude = CredentialSourceKind.AppService) := by
  constructor <;> intro ht <;> simp [resolve_sync, resolve_async, he, hh, ht]

/-- C3 witness: the branch theorem applied at the Service Fabric and App
Service snapshots. -/
theorem c3_identity_endpoint_header_branch_witness :
    (resolve_sync sfEnv false = CredentialSourceKind.ServiceFabric ∧
      resolve_async sfEnv false = CredentialSourceKind.ServiceFabric) ∧
    (resolve_sync appServiceEnv false = CredentialSourceKind.AppService ∧
      resolve_async appServiceEnv false = CredentialSourceKind.AppService) :=
  ⟨(c3_identity_endpoint_header_branch sfEnv false rfl rfl).1 rfl,
   (c3_identity_endpoint_header_branch appServiceEnv false rfl rfl).2 rfl⟩

/-- C5: whenever `IDENTITY_ENDPOINT` is absent and `MSI_ENDPOINT` is
present, both variants resolve to AzureML when `MSI_SECRET` is also
present and to CloudShell when it is absent. -/
theorem c5_msi_endpoint_branch (env : Env) (exclude : Bool)
    (he : truthy (env IDENTITY_ENDPOINT) = false)
    (hm : truthy (env MSI_ENDPOINT) = true) :
    (truthy (env MSI_SECRET) = true →
      resolve_sync env exclude = CredentialSourceKind.AzureML ∧
      resolve_async env exclude = CredentialSourceKind.AzureML) ∧
    (truthy (env MSI_SECRET) = false →
      resolve_sync env exclude = CredentialSourceKind.CloudShell ∧
      resolve_async env exclude = CredentialSourceKind.CloudShell) := by
  constructor <;> intro hs <;> simp [resolve_sync, resolve_async, he, hm, hs]

/-- C5 witness: the branch theorem applied at the Azure ML and Cloud Shell
snapshots. -/
theorem c5_msi_endpoint_branch_witness :
    (resolve_sync azureMlEnv false = CredentialSourceKind.AzureML ∧
      resolve_async azureMlEnv false = CredentialSourceKind.AzureML) ∧
    (resolve_sync cloudShellEnv false = CredentialSourceKind.CloudShell ∧
      resolve_async cloudShellEnv false = CredentialSourceKind.CloudShell) :=
  ⟨(c5_msi_endpoint_branch azureMlEnv false rfl rfl).1 rfl,
   (c5_msi_endpoint_branch cloudShellEnv false rfl rfl).2 rfl⟩

/-- C6: with the workload-identity signal set fully present and neither
the identity-endpoint branch nor the MSI-endpoint branch matching, both
variants resolve to WorkloadIdentity when the exclude flag is false, and
fall through to Imds when it is true. -/
theorem c6_workload_identity_branch (env : Env)
    (he : truthy (env IDENTITY_ENDPOINT) = false)
    (hm : truthy (env MSI_ENDPOINT) = false)
    (hw : workloadVarsPresent env = true) :
    (resolve_sync env false = CredentialSourceKind.WorkloadIdentity ∧
      resolve_async env false = CredentialSourceKind.WorkloadIdentity) ∧
    (resolve_sync env true = CredentialSourceKind.Imds ∧
      resolve_async env true = CredentialSourceKind.Imds) := by
  simp [resolve_sync, resolve_async, he, hm, hw]

/-- C6 witness: the branch theorem applied at the workload-identity
snapshot. -/
theorem c6_workload_identity_branch_witness :
    (resolve_sync wlEnv false = CredentialSourceKind.WorkloadIdentity ∧
      resolve_async wlEnv false = CredentialSourceKind.WorkloadIdentity) ∧
    (resolve_sync wlEnv true = CredentialSourceKind.Imds ∧
      resolve_async wlEnv true = CredentialSourceKind.Imds) :=
  c6_workload_identity_branch wlEnv rfl rfl rfl

/-- C2: `get_token` raises `CredentialUnavailableError` — whose message
names that the platform could not be determined from environment variables
and points at the troubleshooting page — exactly when the facade holds no
delegate (for a delegate that does not itself return that identical
error); when a delegate is held, the call is forwarded verbatim and its
result, success or failure, is returned unchanged. -/
theorem c2_get_token_contract (cred : Option CredentialSourceKind)
    (delegate : DelegateGetToken) (req : TokenRequest)
    (hds : ∀ c r, delegate c r ≠ .error (.credentialUnavailable syncUnavailableMessage))
    (hda : ∀ c r, delegate c r ≠ .error (.credentialUnavailable asyncUnavailableMessage)) :
    ((sync_get_token cred delegate req =
        .error (.credentialUnavailable syncUnavailableMessage)) ↔ cred = none) ∧
    ((async_get_token cred delegate req =
        .error (.credentialUnavailable asyncUnavailableMessage)) ↔ cred = none) ∧
    (∀ c, cred = some c →
      sync_get_token cred delegate req = delegate c req ∧
      async_get_token cred delegate req = delegate c req) ∧
    (∃ pre post, syncUnavailableMessage =
      pre ++ "could not be determined from environment variables" ++ post) ∧
    (∃ pre post, asyncUnavailableMessage =
      pre ++ "could not be determined from environment variables" ++ post) ∧
    (∃ pre post, syncUnavailableMessage =
      pre ++ "https://aka.ms/azsdk/python/identity/managedidentitycredential/troubleshoot" ++ post) ∧
    (∃ pre post, asyncUnavailableMessage =
      pre ++ "https://aka.ms/azsdk/python/identity/managedidentitycredential/troubleshoot" ++ post) := by
  refine ⟨?_, ?_, ?_, ?_, ?_, ?_, ?_⟩
  · cases cred with
    | none => simp [sync_get_token]
    | some c => simp [sync_get_token, hds c req]
  · cases cred with
    | none => simp [async_get_token]
    | some c => simp [async_get_token, hda c req]
  · rintro c rfl
    exact ⟨rfl, rfl⟩
  · exact ⟨"No managed identity endpoint found. \nThe Target Azure platform ",
      ". \nVisit https://aka.ms/azsdk/python/identity/managedidentitycredential/troubleshoot to troubleshoot this issue.",
      rfl⟩
  · exact ⟨"No managed identity endpoint found. \nThe Target Azure platform ",
      ". Visit https://aka.ms/azsdk/python/identity/managedidentitycredential/troubleshoot to troubleshoot this issue.",
      rfl⟩
  · exact ⟨"No managed identity endpoint found. \nThe Target Azure platform could not be determined from environment variables. \nVisit ",
      " to troubleshoot this issue.", rfl⟩
  · exact ⟨"No managed identity endpoint found. \nThe Target Azure platform could not be determined from environment variables. Visit ",
      " to troubleshoot this issue.", rfl⟩

/-- C2 witness: the contract applied with the always-succeeding delegate,
both with a held AppService delegate (the spec's example scenario) and
with no delegate. -/
theorem c2_get_token_contract_witness :
    (sync_get_token (some CredentialSourceKind.AppService) okDelegate exampleRequest =
      okDelegate CredentialSourceKind.AppService exampleRequest ∧
     async_get_token (some CredentialSourceKind.AppService) okDelegate exampleRequest =
      okDelegate CredentialSourceKind.AppService exampleRequest) ∧
    (sync_get_token none okDelegate exampleRequest =
      .error (.credentialUnavailable syncUnavailableMessage)) :=
  ⟨(c2_get_token_contract (some CredentialSourceKind.AppService) okDelegate exampleRequest
      (fun _ _ h => Except.noConfusion h) (fun _ _ h => Except.noConfusion h)).2.2.1
      CredentialSourceKind.AppService rfl,
   (c2_get_token_contract none okDelegate exampleRequest
      (fun _ _ h => Except.noConfusion h) (fun _ _ h => Except.noConfusion h)).1.mpr rfl⟩

/-- C4: when the workload-identity branch is selected (signal set present,
exclude flag false, no earlier branch matched) but neither the `client_id`
option nor `AZURE_CLIENT_ID` yields a truthy client ID, both constructors
raise `ValueError` immediately — construction fails, so the error cannot be
deferred to `get_token` time, and it is not a `CredentialUnavailableError`. -/
theorem c4_workload_identity_client_id_error (env : Env) (opts : Options)
    (he : truthy (env IDENTITY_ENDPOINT) = false)
    (hm : truthy (env MSI_ENDPOINT) = false)
    (hw : workloadVarsPresent env = true)
    (hx : opts.exclude_workload_identity = false)
    (hc : truthy opts.client_id = false)
    (hc' : truthy (env AZURE_CLIENT_ID) = false) :
    sync_init env opts = .error (.valueError clientIdErrorMessage) ∧
    async_init env opts = .error (.valueError clientIdErrorMessage) := by
  unfold sync_init async_init
  simp [he, hm, hw, hx, truthy_pyOr, hc, hc']

/-- C4 witness: the construction-time error at the concrete
workload-identity snapshot with default options. -/
theorem c4_workload_identity_client_id_error_witness :
    sync_init wlEnv defaultOpts = .error (.valueError clientIdErrorMessage) ∧
    async_init wlEnv defaultOpts = .error (.valueError clientIdErrorMessage) :=
  c4_workload_identity_client_id_error wlEnv defaultOpts rfl rfl rfl rfl rfl rfl

/-- C7: on the empty snapshot both variants resolve to Imds and both
constructors hold a non-null delegate; and Imds is the universal fallback:
whenever no earlier branch matches (identity endpoint absent, MSI endpoint
absent, workload branch not taken), resolution yields Imds. -/
theorem c7_imds_universal_fallback :
    (∀ exclude, resolve_sync emptyEnv exclude = CredentialSourceKind.Imds ∧
      resolve_async emptyEnv exclude = CredentialSourceKind.Imds) ∧
    (∀ opts, sync_init emptyEnv opts = .ok (some CredentialSourceKind.Imds) ∧
      async_init emptyEnv opts = .ok (some CredentialSourceKind.Imds)) ∧
    (∀ env exclude, truthy (env IDENTITY_ENDPOINT) = false →
      truthy (env MSI_ENDPOINT) = false →
      (workloadVarsPresent env && !exclude) = false →
      resolve_sync env exclude = CredentialSourceKind.Imds ∧
      resolve_async env exclude = CredentialSourceKind.Imds) := by
  refine ⟨fun exclude => ?_, fun opts => ?_, fun env exclude he hm hw => ?_⟩
  · constructor <;> rfl
  · unfold sync_init async_init
    simp [emptyEnv, truthy, workloadVarsPresent, WORKLOAD_IDENTITY_VARS]
  · unfold resolve_sync resolve_async
    simp [he, hm, hw]

/-- C7 witness: the fallback conjunct applied at the endpoint-only
snapshot with the exclude flag set. -/
theorem c7_imds_universal_fallback_witness :
    resolve_sync wlEnv true = CredentialSourceKind.Imds ∧
    resolve_async wlEnv true = CredentialSourceKind.Imds :=
  c7_imds_universal_fallback.2.2 wlEnv true rfl rfl rfl

/-- C8: resolution (and construction) discriminates on presence only: an
empty-string binding behaves exactly like an absent variable, so removing
every empty-string binding changes nothing. -/
theorem c8_empty_string_is_absent (env : Env) (exclude : Bool) (opts : Options) :
    resolve_sync (stripEmpty env) exclude = resolve_sync env exclude ∧
    resolve_async (stripEmpty env) exclude = resolve_async env exclude ∧
    sync_init (stripEmpty env) opts = sync_init env opts ∧
    async_init (stripEmpty env) opts = async_init env opts := by
  refine ⟨?_, ?_, ?_, ?_⟩ <;>
    simp only [resolve_sync, resolve_async, sync_init, async_init,
      truthy_pyOr, truthy_stripEmpty, workloadVarsPresent_stripEmpty]

/-- C9: `close` (equivalently scope exit) never raises, assuming the
delegate's own close is non-failing: it succeeds with a held delegate,
succeeds when run twice in a row, and is an unconditional no-op when no
delegate is held. -/
theorem c9_close_never_raises (cred : Option CredentialSourceKind)
    (dclose : DelegateClose) (hd : ∀ c, dclose c = .ok ()) :
    sync_close cred dclose = .ok () ∧
    async_close cred dclose = .ok () ∧
    (sync_close cred dclose).bind (fun _ => sync_close cred dclose) = .ok () ∧
    (async_close cred dclose).bind (fun _ => async_close cred dclose) = .ok () ∧
    sync_close none dclose = .ok () ∧
    async_close none dclose = .ok () := by
  cases cred with
  | none => simp [sync_close, async_close, Except.bind]
  | some c => simp [sync_close, async_close, Except.bind, hd c]

/-- C9 witness: close applied twice on a facade holding the Imds delegate
with a non-failing delegate close. -/
theorem c9_close_never_raises_witness :
    sync_close (some CredentialSourceKind.Imds) okClose = .ok () ∧
    async_close (some CredentialSourceKind.Imds) okClose = .ok () ∧
    (sync_close (some CredentialSourceKind.Imds) okClose).bind
      (fun _ => sync_close (some CredentialSourceKind.Imds) okClose) = .ok () ∧
    (async_close (some CredentialSourceKind.Imds) okClose).bind
      (fun _ => async_close (some CredentialSourceKind.Imds) okClose) = .ok () ∧
    sync_close none okClose = .ok () ∧
    async_close none okClose = .ok () :=
  c9_close_never_raises (some CredentialSourceKind.Imds) okClose (fun _ => rfl)

/-- C10: every successful asynchronous construction holds a delegate, so
the `CredentialUnavailableError` branch of the asynchronous `get_token` is
unreachable after construction; the synchronous construction, by contrast,
succeeds while holding no delegate on the snapshot binding only
`IDENTITY_ENDPOINT`, and that facade's `get_token` then raises
`CredentialUnavailableError`. -/
theorem c10_async_total_sync_partial :
    (∀ env opts r, async_init env opts = .ok r →
      ∃ c, r = some c ∧
        ∀ delegate req, async_get_token r delegate req = delegate c req) ∧
    sync_init endpointOnlyEnv defaultOpts = .ok none ∧
    (∀ delegate req, sync_get_token none delegate req =
      .error (.credentialUnavailable syncUnavailableMessage)) := by
  refine ⟨?_, rfl, fun delegate req => rfl⟩
  intro env opts r h
  unfold async_init at h
  repeat' split at h
  all_goals cases h
  all_goals exact ⟨_, rfl, fun delegate req => rfl⟩

/-- C10 witness: the totality conjunct applied at the empty snapshot,
whose asynchronous construction yields the Imds delegate. -/
theorem c10_async_total_sync_partial_witness :
    ∃ c, (some CredentialSourceKind.Imds : Option CredentialSourceKind) = some c ∧
      ∀ delegate req,
        async_get_token (some CredentialSourceKind.Imds) delegate req = delegate c req :=
  c10_async_total_sync_partial.1 emptyEnv defaultOpts (some CredentialSourceKind.Imds) rfl

end ManagedIdentity
